import Mathlib

set_option linter.unusedVariables false

/-!
# Verification of the caldp orchestration layer

Shallow embedding of the fault-handling, retry, classification, output-path
and status-messaging logic of the `caldp` package (`caldp/sysexit.py`,
`caldp/process.py`, `caldp/messages.py`), together with theorems settling the
frozen claims about those modules.

Conventions:
* Python exceptions are modelled by the inductive `PyExc`; a block of code is
  modelled by its result, `Option PyExc` (`none` = returned normally,
  `some e` = raised `e`).
* Machine-level effects (logging text, `os._exit`) are modelled by returning
  the data that would be logged / the exit status.
* The nondeterministic outcome of the 1 TiB `bytearray` allocation attempted
  by the `CONTAINER_MEMORY_ERROR` simulation is an explicit boolean parameter.
-/

namespace Caldp

/-! ## exit_codes

The module `caldp/exit_codes.py` is imported by `sysexit.py` and
`process.py` but is not present under `src/`, so its constants are modelled
from the spec (§4.1: a closed set of fixed, non-overlapping integers).  The
values that appear verbatim in `sysexit.py`'s doctest output are exact:
`SUCCESS = 0`, `GENERIC_ERROR = 1`, `CMDLINE_ERROR = 2`, `STAGE1_ERROR = 23`,
`CALDP_MEMORY_ERROR = 32`, `OS_MEMORY_ERROR = 34`.  The remaining names
referenced from `src/` are assigned arbitrary pairwise-distinct values
consistent with the spec's non-overlap requirement. -/

namespace exit_codes

/-- Documented in `sysexit.py` doctests: success status. -/
def SUCCESS : Nat := 0

/-- Documented in `sysexit.py` doctests: `GENERIC_ERROR[1]`. -/
def GENERIC_ERROR : Nat := 1

/-- Documented in `sysexit.py` doctests: `CMDLINE_ERROR[2]`. -/
def CMDLINE_ERROR : Nat := 2

/-- Modelled from the spec: archive-extraction I/O error code of
`exit_codes.py` (missing from src); value arbitrary but distinct. -/
def INPUT_TAR_FILE_ERROR : Nat := 21

/-- Modelled from the spec: remote-query download error code of
`exit_codes.py` (missing from src); value arbitrary but distinct. -/
def ASTROQUERY_ERROR : Nat := 22

/-- Documented in `sysexit.py` doctests: `STAGE1_ERROR[23]`. -/
def STAGE1_ERROR : Nat := 23

/-- Modelled from the spec: stage2 processing error code of `exit_codes.py`
(missing from src); value arbitrary but distinct. -/
def STAGE2_ERROR : Nat := 24

/-- Modelled from the spec: reference-assignment error code of
`exit_codes.py` (missing from src); value arbitrary but distinct. -/
def BESTREFS_ERROR : Nat := 25

/-- Modelled from the spec: object-storage download error code of
`exit_codes.py` (missing from src); value arbitrary but distinct. -/
def S3_DOWNLOAD_ERROR : Nat := 26

/-- Modelled from the spec: object-storage upload error code of
`exit_codes.py` (missing from src); value arbitrary but distinct. -/
def S3_UPLOAD_ERROR : Nat := 27

/-- Modelled from the spec: visit-mosaic workflow error code of
`exit_codes.py` (missing from src); value arbitrary but distinct. -/
def SVM_ERROR : Nat := 28

/-- Modelled from the spec: multi-visit-mosaic workflow error code of
`exit_codes.py` (missing from src); value arbitrary but distinct. -/
def MVM_ERROR : Nat := 29

/-- Modelled from the spec: subprocess-reported memory exhaustion code of
`exit_codes.py` (missing from src); value arbitrary but distinct. -/
def SUBPROCESS_MEMORY_ERROR : Nat := 31

/-- Documented in `sysexit.py` doctests: `CALDP_MEMORY_ERROR[32]`. -/
def CALDP_MEMORY_ERROR : Nat := 32

/-- Modelled from the spec: container-level memory exhaustion code of
`exit_codes.py` (missing from src); value arbitrary but distinct. -/
def CONTAINER_MEMORY_ERROR : Nat := 33

/-- Documented in `sysexit.py` doctests: `OS_MEMORY_ERROR[34]`. -/
def OS_MEMORY_ERROR : Nat := 34

/-- The closed set of fault codes of the Fault Model (every code except
`SUCCESS`). -/
def FAULT_CODES : List Nat :=
  [GENERIC_ERROR, CMDLINE_ERROR, INPUT_TAR_FILE_ERROR, ASTROQUERY_ERROR,
   STAGE1_ERROR, STAGE2_ERROR, BESTREFS_ERROR, S3_DOWNLOAD_ERROR,
   S3_UPLOAD_ERROR, SVM_ERROR, MVM_ERROR, SUBPROCESS_MEMORY_ERROR,
   CALDP_MEMORY_ERROR, CONTAINER_MEMORY_ERROR, OS_MEMORY_ERROR]

end exit_codes

/-! ## sysexit.py -/

/-- The Python exceptions that play a role in `caldp/sysexit.py`.
`caldpExit` models `CaldpExit(code)` (a `SystemExit` subclass carrying the
decided exit status); `subprocessFailure` models `SubprocessFailure(returncode)`;
`baseExc` stands for a `BaseException` that is not an `Exception` subclass
(and is not `CaldpExit`), e.g. `KeyboardInterrupt`; `otherExc` stands for any
other `Exception` subclass. -/
inductive PyExc where
  | memoryError (msg : String)
  | osError (msg : String)
  | runtimeError (msg : String)
  | valueError (msg : String)
  | otherExc (msg : String)
  | subprocessFailure (returncode : Int)
  | caldpExit (code : Nat)
  | baseExc (msg : String)
deriving DecidableEq, Repr

/-- `"Cannot allocate memory" in str(exc) + repr(exc)` for an
`OSError(msg)`: since `repr(exc)` is `"OSError('" + msg + "')"`, the needle
occurs in the concatenation iff it occurs in `msg` itself. -/
def memSubstr (msg : String) : Bool :=
  decide (List.IsInfix "Cannot allocate memory".data msg.data)

/-- The exit code the `except` chain of `exit_on_exception` assigns to a
caught exception: `MemoryError` is promoted to `CALDP_MEMORY_ERROR`,
an `OSError` whose description contains the allocation-failure substring is
promoted to `OS_MEMORY_ERROR`, everything else keeps the caller's
`exit_code` (`sysexit.py` lines 191-211). -/
def guardAssignedCode (exit_code : Nat) : PyExc → Nat
  | .memoryError _ => exit_codes.CALDP_MEMORY_ERROR
  | .osError msg => if memSubstr msg then exit_codes.OS_MEMORY_ERROR else exit_code
  | _ => exit_code

/-- A `_report_exception` call, as the data it logs: the explained exit code
and the `*args` context message. -/
abbrev Report := Nat × List String

/-- The `except` chain of `exit_on_exception`: given the exception raised in
the `try`, return the `_report_exception` calls made and the exception that
propagates out of the manager.  `CaldpExit` is re-raised untouched (nested
guards do not re-wrap), a `BaseException` that is no `Exception` is not
caught at all; every caught exception is reported once and converted to
`CaldpExit` of the assigned code. -/
def classify (exit_code : Nat) (args : List String) : PyExc → List Report × PyExc
  | .caldpExit c => ([], .caldpExit c)
  | .baseExc msg => ([], .baseExc msg)
  | exc => ([(guardAssignedCode exit_code exc, args)],
            .caldpExit (guardAssignedCode exit_code exc))

/-- The fault-injection prologue of `exit_on_exception`
(`sysexit.py` lines 175-189): the exception synthesized before `yield`,
`none` meaning the body is allowed to run.  `allocSucceeds` resolves the
nondeterministic 1 TiB `bytearray(1024 * 2**30)` allocation attempted for
`CONTAINER_MEMORY_ERROR` (the source comments `XXXX does not trigger
container limit as intended`); the `SUBPROCESS_MEMORY_ERROR` branch prints
`MemoryError` to stderr and raises a generic `RuntimeError`. -/
def simulate (simulated_code exit_code : Nat) (allocSucceeds : Bool) : Option PyExc :=
  if simulated_code = exit_codes.CALDP_MEMORY_ERROR then
    some (.memoryError "Simulated CALDP MemoryError.")
  else if simulated_code = exit_codes.OS_MEMORY_ERROR then
    some (.osError "Cannot allocate memory...")
  else if simulated_code = exit_codes.SUBPROCESS_MEMORY_ERROR then
    some (.runtimeError "Simulated subprocess memory error with subsequent generic program exception.")
  else if simulated_code = exit_codes.CONTAINER_MEMORY_ERROR then
    (if allocSucceeds then none else some (.memoryError "bytearray allocation failed"))
  else if exit_code = simulated_code then
    some (.runtimeError "Simulating error")
  else
    none

/-- Result of running a `with exit_on_exception(...)` block: whether the
guarded body was entered, the `_report_exception` calls issued, and the
exception leaving the block (`none` = normal return). -/
structure GuardResult where
  bodyRan : Bool
  reports : List Report
  outcome : Option PyExc
deriving DecidableEq, Repr

/-- `exit_on_exception(exit_code, *args)` around a body whose own result is
`body` (`none` = the body would return normally, `some e` = it would raise
`e`).  `simulated_code` is `int(os.environ.get("CALDP_SIMULATE_ERROR", "0"))`. -/
def exit_on_exception (simulated_code exit_code : Nat) (args : List String)
    (allocSucceeds : Bool) (body : Option PyExc) : GuardResult :=
  match simulate simulated_code exit_code allocSucceeds with
  | some exc =>
      let (reps, out) := classify exit_code args exc
      { bodyRan := false, reports := reps, outcome := some out }
  | none =>
      match body with
      | none => { bodyRan := true, reports := [], outcome := none }
      | some exc =>
          let (reps, out) := classify exit_code args exc
          { bodyRan := true, reports := reps, outcome := some out }

/-- Two nested `exit_on_exception` blocks sharing one
`CALDP_SIMULATE_ERROR` environment value: the outer guard's simulation
prologue runs first; only if it does not fire is the inner guard (wrapping
`body`) entered, and whatever leaves the inner guard becomes the outer
guard's body result.  Reports accumulate in order. -/
def run_nested (sim oc : Nat) (oargs : List String) (ic : Nat) (iargs : List String)
    (allocSucceeds : Bool) (body : Option PyExc) : GuardResult :=
  match simulate sim oc allocSucceeds with
  | some exc =>
      let (reps, out) := classify oc oargs exc
      { bodyRan := false, reports := reps, outcome := some out }
  | none =>
      let inner := exit_on_exception sim ic iargs allocSucceeds body
      let outer := exit_on_exception sim oc oargs allocSucceeds inner.outcome
      { bodyRan := inner.bodyRan,
        reports := inner.reports ++ outer.reports,
        outcome := outer.outcome }

/-- `exit_receiver()` around a top-level body (`sysexit.py` lines 339-360):
returns the status passed to `os._exit` together with the
`_report_exception` calls it makes itself.  `CaldpExit` lands silently with
its carried code; an untrapped `MemoryError` maps to `CALDP_MEMORY_ERROR`,
an untrapped allocation-failure `OSError` to `OS_MEMORY_ERROR`, and any
other exception (`except BaseException`) to `GENERIC_ERROR`. -/
def exit_receiver (body : Option PyExc) : Nat × List Report :=
  match body with
  | none => (exit_codes.SUCCESS, [])
  | some (.caldpExit c) => (c, [])
  | some (.memoryError _) =>
      (exit_codes.CALDP_MEMORY_ERROR,
       [(exit_codes.CALDP_MEMORY_ERROR, ["Untrapped memory exception."])])
  | some (.osError msg) =>
      if memSubstr msg then
        (exit_codes.OS_MEMORY_ERROR,
         [(exit_codes.OS_MEMORY_ERROR, ["Untrapped OSError cannot callocate memory"])])
      else
        (exit_codes.GENERIC_ERROR,
         [(exit_codes.GENERIC_ERROR, ["Untrapped OSError, generic."])])
  | some _ =>
      (exit_codes.GENERIC_ERROR,
       [(exit_codes.GENERIC_ERROR, ["Untrapped non-memory exception."])])

/-- `True` exactly for constructors modelling Python `Exception` subclasses
(the exceptions that a bare `except Exception` catches); `CaldpExit`
(a `SystemExit`) and other bare `BaseException`s are excluded. -/
def isExceptionClass : PyExc → Bool
  | .caldpExit _ => false
  | .baseExc _ => false
  | _ => true

/-- `True` for the exceptions that the memory-promotion clauses of
`exit_on_exception` remap regardless of the caller-supplied code. -/
def isMemoryPromoted : PyExc → Bool
  | .memoryError _ => true
  | .osError msg => memSubstr msg
  | _ => false

/-! ## retry / exponential_backoff (sysexit.py lines 389-433) -/

/-- Outcome of the `decor` closure produced by `retry`:
`ok` = some attempt returned, `raised e` = the final `raise exc` re-raised
the saved exception `e`, `unboundLocal` = `raise exc` was reached with `exc`
never assigned (Python raises `UnboundLocalError` there), which happens
exactly when the `while` loop body never ran. -/
inductive RetryResult (ε α : Type) where
  | ok : α → RetryResult ε α
  | raised : ε → RetryResult ε α
  | unboundLocal : RetryResult ε α
deriving DecidableEq, Repr

/-- The `while tried < max_retries` loop of `retry`'s `decor`, structured on
`remaining = max_retries - tried` (the loop guard `tried < max_retries`
holds iff `remaining > 0`).  `f i` is the result of the `(i+1)`-st call of
`func` (`Except.error e` = it raised the qualifying exception `e`).
Returns the loop's outcome together with the total number of times `func`
was invoked (`calls` accumulates); on exhaustion `raise exc` re-raises the
saved exception, or hits `UnboundLocalError` if no attempt ever ran. -/
def retryLoop (f : Nat → Except ε α) :
    Nat → Nat → Nat → Option ε → RetryResult ε α × Nat
  | 0, _, calls, saved =>
      (match saved with
       | some e => .raised e
       | none => .unboundLocal, calls)
  | remaining + 1, tried, calls, saved =>
      match f tried with
      | .ok a => (.ok a, calls + 1)
      | .error e => retryLoop f remaining (tried + 1) (calls + 1) (some e)

/-- `retry(func, max_retries, ...)` applied to arguments: runs the loop from
`tried = 0` with no saved exception. -/
def retry (f : Nat → Except ε α) (max_retries : Nat) : RetryResult ε α × Nat :=
  retryLoop f max_retries 0 0 none

/-- `exponential_backoff(iteration, min_sleep=1, max_sleep=64, backoff=2)`
(`sysexit.py` line 433), with `u` standing for the `random.uniform(0.5, 1)`
draw: `max(min(u * backoff**iteration, max_sleep), min_sleep)`. -/
def exponential_backoff (u : ℚ) (iteration : Nat)
    (min_sleep max_sleep backoff : ℚ) : ℚ :=
  max (min (u * backoff ^ iteration) max_sleep) min_sleep

/-- The sleep computed inside `retry`'s loop for failed attempt `tried`:
the source calls `exponential_backoff(tried)` passing ONLY the iteration, so
`exponential_backoff`'s own defaults `min_sleep=1, max_sleep=64, backoff=2`
are used and `retry`'s parameters `min_sleep`, `max_sleep`, `backoff` are
silently ignored. -/
def retrySleep (u : ℚ) (min_sleep max_sleep backoff : ℚ) (tried : Nat) : ℚ :=
  exponential_backoff u tried 1 64 2

/-- The sleep formula stated by the claim (and by `retry`'s own docstring):
clipped to the caller's `[min_sleep, max_sleep]` band with the caller's
`backoff` factor. -/
def claimedSleep (u : ℚ) (min_sleep max_sleep backoff : ℚ) (tried : Nat) : ℚ :=
  min (max (u * backoff ^ tried) min_sleep) max_sleep

/-! ## process.py: dataset classification -/

/-- The regex character class `[a-zA-Z0-9]`. -/
def isAlnumAscii (c : Char) : Bool :=
  (decide (('a' : Char) ≤ c) && decide (c ≤ ('z' : Char))) ||
  (decide (('A' : Char) ≤ c) && decide (c ≤ ('Z' : Char))) ||
  (decide (('0' : Char) ≤ c) && decide (c ≤ ('9' : Char)))

/-- The regex character class `[0-9]`. -/
def isDigitAscii (c : Char) : Bool :=
  decide (('0' : Char) ≤ c) && decide (c ≤ ('9' : Char))

/-- Python `str.lower()` (the dataset identifiers handled here are ASCII). -/
def pyLower (s : String) : String := String.mk (s.data.map Char.toLower)

/-- Python `str.upper()` (ASCII inputs). -/
def pyUpper (s : String) : String := String.mk (s.data.map Char.toUpper)

/-- Helper for Python `str.split(sep)` with a one-character separator:
splits on every occurrence, keeping empty segments. -/
def splitCharAux (sep : Char) : List Char → List Char → List (List Char)
  | [], acc => [acc.reverse]
  | c :: rest, acc =>
      if c = sep then acc.reverse :: splitCharAux sep rest []
      else splitCharAux sep rest (c :: acc)

/-- Python `s.split(sep)` for a one-character `sep`; always nonempty. -/
def pySplit (s : String) (sep : Char) : List String :=
  (splitCharAux sep s.data []).map String.mk

/-- `IPPPSSOOT_RE = re.compile(r"^[IJLOijlo][a-zA-Z0-9]{8,8}$")`, as a full
match on the string: one leading character from the class `[IJLOijlo]`
followed by exactly eight alphanumerics. -/
def ipppssootMatch (s : String) : Bool :=
  match s.data with
  | c :: rest =>
      decide (c ∈ (['I', 'J', 'L', 'O', 'i', 'j', 'l', 'o'] : List Char) ∧
              rest.length = 8 ∧ rest.all isAlnumAscii = true)
  | [] => false

/-- One backtracking alternative of
`SVM_RE = re.compile(r"[a-zA-Z0-9]{3,4}_[a-zA-Z0-9]{3}_[a-zA-Z0-9]{2}")`
under `re.match` (anchored at the start only, unanchored at the end): the
elastic first group takes exactly `k` characters, then `_`, three
alphanumerics, `_`, two alphanumerics, with arbitrary remainder. -/
def svmTry (k : Nat) (l : List Char) : Bool :=
  decide ((l.take k).length = k ∧ (l.take k).all isAlnumAscii = true ∧
    (l.drop k).take 1 = ['_'] ∧
    ((l.drop (k + 1)).take 3).length = 3 ∧
    ((l.drop (k + 1)).take 3).all isAlnumAscii = true ∧
    ((l.drop (k + 1)).drop 3).take 1 = ['_'] ∧
    (((l.drop (k + 1)).drop 4).take 2).length = 2 ∧
    (((l.drop (k + 1)).drop 4).take 2).all isAlnumAscii = true)

/-- `SVM_RE.match(dataset)` is truthy: a match exists with the first group
taking 4 (tried first, greedy) or 3 characters. -/
def svmMatch (s : String) : Bool :=
  svmTry 4 s.data || svmTry 3 s.data

/-- `MVM_RE = re.compile(r"skycell-p[0-9]{4}x[0-9]{2}y[0-9]{2}")` under
`re.match` (prefix match, unanchored at the end). -/
def mvmMatch (s : String) : Bool :=
  decide (s.data.take 9 = "skycell-p".data ∧
    ((s.data.drop 9).take 4).length = 4 ∧
    ((s.data.drop 9).take 4).all isDigitAscii = true ∧
    (s.data.drop 13).take 1 = ['x'] ∧
    ((s.data.drop 14).take 2).length = 2 ∧
    ((s.data.drop 14).take 2).all isDigitAscii = true ∧
    (s.data.drop 16).take 1 = ['y'] ∧
    ((s.data.drop 17).take 2).length = 2 ∧
    ((s.data.drop 17).take 2).all isDigitAscii = true)

/-- `IPPPSSOOT_INSTR` (`process.py` lines 44-58): leading character of an
ipppssoot to instrument name. -/
def IPPPSSOOT_INSTR : List (Char × String) :=
  [('J', "acs"), ('U', "wfpc2"), ('V', "hsp"), ('W', "wfpc"), ('X', "foc"),
   ('Y', "fos"), ('Z', "hrs"), ('E', "eng"), ('F', "fgs"), ('I', "wfc3"),
   ('N', "nicmos"), ('O', "stis"), ('L', "cos")]

/-- `SVM_INSTR = {"acs": "j", "wfc3": "i"}`. -/
def SVM_INSTR : List (String × String) := [("acs", "j"), ("wfc3", "i")]

/-- `INSTRUMENTS = set(IPPPSSOOT_INSTR.values())` (as a list; only
membership is used). -/
def INSTRUMENTS : List String := IPPPSSOOT_INSTR.map Prod.snd

/-- `get_instrument(ipppssoot)` (`process.py` lines 65-92).  On the empty
string Python would raise `IndexError` at `ipppssoot.upper()[0]`; that
branch returns `none` here and is unreachable from `get_manager`. -/
def get_instrument (ipppssoot : String) : Option String :=
  if pyLower ipppssoot ∈ INSTRUMENTS then some (pyLower ipppssoot)
  else
    match (pyUpper ipppssoot).data with
    | [] => none
    | c :: _ => List.lookup c IPPPSSOOT_INSTR

/-- The `ValueError` message of `get_dataset_type` (the source string is not
an f-string, so the braces are literal text). -/
def INVALID_DATASET_MSG : String :=
  "Invalid dataset name \x7bdataset\x7d, dataset must be an ipppssoot, SVM, or MVM dataset"

/-- `dataset.split("_")[0] in list(SVM_INSTR.keys())`. -/
def svmPrefixKnown (dataset : String) : Bool :=
  decide ((pySplit dataset '_').headD "" ∈ SVM_INSTR.map Prod.fst)

/-- `get_dataset_type(dataset)` (`process.py` lines 95-116):
`Except.error` models the raised `ValueError`. -/
def get_dataset_type (dataset : String) : Except String String :=
  if ipppssootMatch dataset then .ok "ipst"
  else if svmMatch dataset && svmPrefixKnown dataset then .ok "svm"
  else if mvmMatch dataset then .ok "mvm"
  else .error INVALID_DATASET_MSG

/-- The keys of the `MANAGERS` dict (`process.py` lines 1011-1018). -/
def MANAGERS : List String := ["acs", "cos", "stis", "wfc3", "svm", "mvm"]

/-- `get_manager(dataset, ...)` (`process.py` lines 1021-1051), reduced to
the selection of the manager key: classification error propagates; an
`if`-chain maps the dataset type to a manager key (if none of the branches
fired, Python's `manager_type` would be unbound, a `NameError`); finally the
key is looked up in `MANAGERS` (a missing key would be a `KeyError`). -/
def get_manager (dataset : String) : Except String String :=
  match get_dataset_type dataset with
  | .error e => .error e
  | .ok dataset_type =>
      let manager_type : Option String :=
        if dataset_type = "ipst" then get_instrument dataset
        else if dataset_type = "svm" then some "svm"
        else if dataset_type = "mvm" then some "mvm"
        else none
      match manager_type with
      | none => .error "NameError"
      | some mt => if mt ∈ MANAGERS then .ok mt else .error "KeyError"

/-! ## process.py: output paths -/

/-- Python slicing `s[n:]` on code points. -/
def pyDrop (s : String) (n : Nat) : String := String.mk (s.data.drop n)

/-- `s.startswith(p)`. -/
def pyStartsWith (s p : String) : Bool := decide (List.IsPrefix p.data s.data)

/-- `s.endswith(p)`. -/
def pyEndsWith (s p : String) : Bool := decide (List.IsSuffix p.data s.data)

/-- `os.path.basename(p)`: everything after the last `/`. -/
def pyBasename (p : String) : String := (pySplit p '/').getLastD ""

/-- `os.path.join(a, b)` for the two-argument uses in `process.py`:
an absolute `b` wins; otherwise the parts are joined with exactly one `/`. -/
def pyPathJoin (a b : String) : String :=
  if pyStartsWith b "/" then b
  else if a = "" then b
  else if pyEndsWith a "/" then a ++ b
  else a ++ "/" ++ b

/-- `get_output_path(output_uri, dataset)` (`process.py` lines 133-168);
`none` models the Python value `None`. -/
def get_output_path (output_uri : Option String) (dataset : String) : String :=
  match output_uri with
  | none => "none"
  | some uri =>
      if pyStartsWith uri "file" then
        pyPathJoin ((pySplit uri ':').getLastD "") dataset
      else
        "s3://" ++ (pySplit (pyDrop uri 5) '/').headD "" ++ "/outputs/" ++ dataset

/-- The destination chosen for one surviving output file by
`Manager.output_files` (`process.py` lines 580-585): the environment
snapshot `*_cal_env.txt` goes under a dedicated `env/` subpath, every other
file directly under the dataset's output path. -/
def output_filename (output_path filepath : String) : String :=
  if pyEndsWith filepath "_cal_env.txt" then
    output_path ++ "/env/" ++ pyBasename filepath
  else
    output_path ++ "/" ++ pyBasename filepath

/-! ## process.py: Manager.run subprocess status check -/

/-- State of a `subprocess.Popen` object: `child_status` is the wait status
of the child process (negative = killed by the signal of that absolute
value); the `returncode` attribute is `None` until `poll()`, `wait()` or
`communicate()` is called. -/
structure Popen where
  child_status : Int
  returncode : Option Int
deriving DecidableEq, Repr

/-- `Manager.run` builds the `Popen` with `stdout=PIPE, stderr=STDOUT` and
then only iterates `p.stdout` to EOF; it never calls `poll()`/`wait()`, so
at the status check `p.returncode` is still `None` whatever the child did. -/
def popenAfterStreaming (status : Int) : Popen :=
  { child_status := status, returncode := none }

/-- The status check at the end of `Manager.run` (`process.py` lines
341-344): `if p.returncode in self.ignore_err_nums: ... elif p.returncode:
raise SubprocessFailure(p.returncode)`.  Returns `some rc` iff
`SubprocessFailure(rc)` is raised.  Python's `None` is not `in` any list of
ints and is falsy, so an unset `returncode` never raises. -/
def runCheck (ignore_err_nums : List Int) (p : Popen) : Option Int :=
  match p.returncode with
  | none => none
  | some rc =>
      if rc ∈ ignore_err_nums then none
      else if rc ≠ 0 then some rc
      else none

/-! ## messages.py: status marker state machine

The `Messages` class names one marker file per state:
`submit-<ds>`, `processing-<ds>`, `processed-<ds>.trigger`, `error-<ds>`.
The local `messages/` directory content for one dataset is modelled by which
of the four markers exist. -/

/-- The four marker kinds for a dataset. -/
inductive Marker where
  | submit
  | processing
  | error
  | processed
deriving DecidableEq, Repr

/-- Which marker files exist in the local `messages/` directory for the
dataset. -/
structure MsgDir where
  submit : Bool
  processing : Bool
  error : Bool
  processed : Bool
deriving DecidableEq, Repr

/-- Number of live markers for the dataset. -/
def MsgDir.count (d : MsgDir) : Nat :=
  (if d.submit then 1 else 0) + (if d.processing then 1 else 0) +
  (if d.error then 1 else 0) + (if d.processed then 1 else 0)

/-- `write_message`: `open(self.file, "w")` creates the marker locally
(unconditionally). -/
def writeMarker (d : MsgDir) : Marker → MsgDir
  | .submit => { d with submit := true }
  | .processing => { d with processing := true }
  | .error => { d with error := true }
  | .processed => { d with processed := true }

/-- `remove_message(last_file)` (`messages.py` lines 164-174): returns
immediately if `output_uri is None` (so nothing is ever removed in that
configuration); otherwise removes the local file if it exists.  The
additional S3 delete does not affect the local directory. -/
def removeMarker (uriIsNone : Bool) (d : MsgDir) : Marker → MsgDir
  | m =>
      if uriIsNone then d
      else
        match m with
        | .submit => { d with submit := false }
        | .processing => { d with processing := false }
        | .error => { d with error := false }
        | .processed => { d with processed := false }

/-- The state of a `Messages` object together with the marker directory.
`current` is the marker `self.file`/`self.name` points at (`none` right
after construction, where both are Python `None`). -/
structure MsgState where
  dir : MsgDir
  stat : Int
  current : Option Marker
  uriIsNone : Bool
deriving DecidableEq, Repr

/-- A freshly constructed `Messages` object (`stat = 0`, `self.file = None`)
over local `messages/` directory content `d`, with a non-`None` output
URI. -/
def startState (d : MsgDir) : MsgState :=
  { dir := d, stat := 0, current := none, uriIsNone := false }

/-- Directory holding only the externally-written `submit-<ds>` marker. -/
def submitOnlyDir : MsgDir :=
  { submit := true, processing := false, error := false, processed := false }

/-- A freshly constructed `Messages` object over an initially empty local
`messages/` directory (no CALCLOUD `submit` marker present). -/
def freshMsgState : MsgState :=
  startState { submit := false, processing := false, error := false, processed := false }

/-- `Messages.init` (`messages.py` lines 100-108): creates the directory,
clears any stale `error-`, `processing-`, `processed-` markers
(`clear_messages`), then — if `stat == 0` — points `self.file` at the
`submit-<ds>` marker WITHOUT writing it (the source comments that
`submit-xxx is written by CALCLOUD`, an external collaborator) and
increments `stat`. -/
def Messages.init (s : MsgState) : MsgState :=
  let d := removeMarker s.uriIsNone s.dir .error
  let d := removeMarker s.uriIsNone d .processing
  let d := removeMarker s.uriIsNone d .processed
  if s.stat = 0 then
    { s with dir := d, current := some .submit, stat := 1 }
  else
    { s with dir := d }

/-- `Messages.process_message` (`messages.py` lines 110-119): when
`stat == 1`, writes the new `processing-<ds>` marker first, then removes the
prior marker (`last_file`), then uploads (no local marker change).  When
`stat != 1` the method falls through without doing anything. -/
def Messages.process_message (s : MsgState) : MsgState :=
  let last := s.current
  if s.stat = 1 then
    let d := writeMarker s.dir .processing
    let d := match last with
             | some m => removeMarker s.uriIsNone d m
             | none => d
    { s with dir := d, current := some .processing, stat := s.stat + 1 }
  else s

/-- `Messages.final_message` (`messages.py` lines 127-157): when
`stat == 2`, sums the trailing digits of the two phase metrics files
(`proc_stat`, `prev_stat`); a positive sum selects the `error-<ds>` marker
(and `stat = -1`), zero selects `processed-<ds>.trigger` (and increments
`stat`).  The new marker is written first, then the prior one removed;
`sync_dataset` appends the manifest into the already-written marker file and
`upload_message` copies it out, neither changing the local marker set. -/
def Messages.final_message (proc_stat prev_stat : Nat) (s : MsgState) : MsgState :=
  if s.stat = 2 then
    let result := proc_stat + prev_stat
    let newMarker : Marker := if result > 0 then .error else .processed
    let newStat : Int := if result > 0 then -1 else s.stat + 1
    let last := s.current
    let d := writeMarker s.dir newMarker
    let d := match last with
             | some m => removeMarker s.uriIsNone d m
             | none => d
    { s with dir := d, current := some newMarker, stat := newStat }
  else s

/-! ## Helper lemmas -/

/-- With `CALDP_SIMULATE_ERROR` unset (`simulated_code = 0`) and a nonzero
guard code, no failure is simulated. -/
lemma simulate_env_unset (c : Nat) (alloc : Bool) (hc : c ≠ 0) :
    simulate 0 c alloc = none := by
  simp [simulate, exit_codes.CALDP_MEMORY_ERROR, exit_codes.OS_MEMORY_ERROR,
        exit_codes.SUBPROCESS_MEMORY_ERROR, exit_codes.CONTAINER_MEMORY_ERROR]
  omega

/-- For any `Exception`-class value, `classify` issues exactly one report
with the assigned code and raises `CaldpExit` of that code. -/
lemma classify_exception (code : Nat) (args : List String) (exc : PyExc)
    (hexc : isExceptionClass exc = true) :
    classify code args exc =
      ([(guardAssignedCode code exc, args)], .caldpExit (guardAssignedCode code exc)) := by
  cases exc <;> simp_all [classify, isExceptionClass]

/-! ## Claim theorems -/

/-- C1: the claim states that for EVERY fault code in the Fault Model's
closed set, setting `CALDP_SIMULATE_ERROR` to that code makes the guarded
body not run and the process exit with exactly that code.  The code itself
documents the `CONTAINER_MEMORY_ERROR` branch as broken (`XXXX does not
trigger container limit as intended`): the simulation merely attempts a
real 1 TiB allocation, so either the allocation succeeds and the guarded
body runs normally, or it raises `MemoryError` and the process exits with
`CALDP_MEMORY_ERROR` (32), never with `CONTAINER_MEMORY_ERROR`. -/
theorem container_memory_simulation_bug :
    (exit_on_exception exit_codes.CONTAINER_MEMORY_ERROR exit_codes.STAGE1_ERROR
        ["ctx"] true none).bodyRan = true ∧
    (exit_on_exception exit_codes.CONTAINER_MEMORY_ERROR exit_codes.STAGE1_ERROR
        ["ctx"] false none).outcome
      = some (.caldpExit exit_codes.CALDP_MEMORY_ERROR) ∧
    (exit_receiver (some (.caldpExit exit_codes.CALDP_MEMORY_ERROR))).1
      = exit_codes.CALDP_MEMORY_ERROR ∧
    exit_codes.CALDP_MEMORY_ERROR ≠ exit_codes.CONTAINER_MEMORY_ERROR := by
  refine ⟨rfl, rfl, rfl, ?_⟩
  decide

/-- C2: inside a guard (simulation off), an in-process `MemoryError` is
promoted to `CALDP_MEMORY_ERROR` and an `OSError` containing the
allocation-failure substring to `OS_MEMORY_ERROR`, whatever caller code `c`
was supplied; the same promotions apply to such exceptions reaching
`exit_receiver` un-guarded; and any other `Exception`-class fault inside the
guard yields `CaldpExit c` exactly. -/
theorem guard_memory_promotion (c : Nat) (args : List String) (alloc : Bool)
    (m m2 : String) (exc : PyExc) (hc : c ≠ 0) (hm2 : memSubstr m2 = true)
    (hexc : isExceptionClass exc = true) (hnp : isMemoryPromoted exc = false) :
    (exit_on_exception 0 c args alloc (some (.memoryError m))).outcome
      = some (.caldpExit exit_codes.CALDP_MEMORY_ERROR) ∧
    (exit_on_exception 0 c args alloc (some (.osError m2))).outcome
      = some (.caldpExit exit_codes.OS_MEMORY_ERROR) ∧
    (exit_receiver (some (.memoryError m))).1 = exit_codes.CALDP_MEMORY_ERROR ∧
    (exit_receiver (some (.osError m2))).1 = exit_codes.OS_MEMORY_ERROR ∧
    (exit_on_exception 0 c args alloc (some exc)).outcome = some (.caldpExit c) := by
  have hs := simulate_env_unset c alloc hc
  refine ⟨?_, ?_, rfl, ?_, ?_⟩
  · simp [exit_on_exception, hs, classify, guardAssignedCode]
  · simp [exit_on_exception, hs, classify, guardAssignedCode, hm2]
  · simp [exit_receiver, hm2]
  · have hcl := classify_exception c args exc hexc
    have hcode : guardAssignedCode c exc = c := by
      cases exc <;> simp_all [guardAssignedCode, isMemoryPromoted]
    simp [exit_on_exception, hs, hcl, hcode]

/-- C2 witness: concrete instantiation at `c = STAGE1_ERROR`, a plain
`RuntimeError`, and the canonical allocation-failure message. -/
theorem guard_memory_promotion_witness :
    ((23 : Nat) ≠ 0 ∧ memSubstr "Cannot allocate memory..." = true ∧
     isExceptionClass (.runtimeError "boom") = true ∧
     isMemoryPromoted (.runtimeError "boom") = false) ∧
    ((exit_on_exception 0 23 ["msg"] true (some (.memoryError "oom"))).outcome
       = some (.caldpExit exit_codes.CALDP_MEMORY_ERROR) ∧
     (exit_on_exception 0 23 ["msg"] true (some (.osError "Cannot allocate memory..."))).outcome
       = some (.caldpExit exit_codes.OS_MEMORY_ERROR) ∧
     (exit_receiver (some (.memoryError "oom"))).1 = exit_codes.CALDP_MEMORY_ERROR ∧
     (exit_receiver (some (.osError "Cannot allocate memory..."))).1 = exit_codes.OS_MEMORY_ERROR ∧
     (exit_on_exception 0 23 ["msg"] true (some (.runtimeError "boom"))).outcome
       = some (.caldpExit 23)) :=
  ⟨⟨by decide, by decide, by decide, by decide⟩,
   guard_memory_promotion 23 ["msg"] true "oom" "Cannot allocate memory..."
     (.runtimeError "boom") (by decide) (by decide) (by decide) (by decide)⟩

/-- C3: with two nested guards (simulation off, distinct nonzero codes), an
`Exception`-class fault raised in the inner body is reported exactly once,
with the inner context message and the code assigned by the inner guard;
the resulting `CaldpExit` passes through the outer guard untouched (no
second report, no re-wrap), and for a fault not subject to memory promotion
the assigned code is the inner guard's own code, never the outer one. -/
theorem nested_guard_innermost (oc ic : Nat) (oargs iargs : List String)
    (alloc : Bool) (exc : PyExc) (hoc : oc ≠ 0) (hic : ic ≠ 0) (hne : oc ≠ ic)
    (hexc : isExceptionClass exc = true) :
    run_nested 0 oc oargs ic iargs alloc (some exc) =
      { bodyRan := true,
        reports := [(guardAssignedCode ic exc, iargs)],
        outcome := some (.caldpExit (guardAssignedCode ic exc)) } ∧
    (isMemoryPromoted exc = false →
      guardAssignedCode ic exc = ic ∧ guardAssignedCode ic exc ≠ oc) := by
  have hso := simulate_env_unset oc alloc hoc
  have hsi := simulate_env_unset ic alloc hic
  have hcl := classify_exception ic iargs exc hexc
  constructor
  · cases exc <;>
      simp_all [run_nested, hso, exit_on_exception, hsi, classify,
                guardAssignedCode, isExceptionClass]
  · intro hnp
    have hcode : guardAssignedCode ic exc = ic := by
      cases exc <;> simp_all [guardAssignedCode, isMemoryPromoted]
    exact ⟨hcode, by rw [hcode]; exact fun h => hne h.symm⟩

/-- C3 witness: outer guard `STAGE2_ERROR` (24), inner guard
`STAGE1_ERROR` (23), a generic `RuntimeError` in the inner body. -/
theorem nested_guard_innermost_witness :
    ((24 : Nat) ≠ 0 ∧ (23 : Nat) ≠ 0 ∧ (24 : Nat) ≠ 23 ∧
     isExceptionClass (.runtimeError "Some obscure error") = true) ∧
    (run_nested 0 24 ["outer ctx"] 23 ["inner ctx"] true
        (some (.runtimeError "Some obscure error")) =
      { bodyRan := true,
        reports := [(guardAssignedCode 23 (.runtimeError "Some obscure error"), ["inner ctx"])],
        outcome := some (.caldpExit (guardAssignedCode 23 (.runtimeError "Some obscure error"))) } ∧
     (isMemoryPromoted (.runtimeError "Some obscure error") = false →
       guardAssignedCode 23 (.runtimeError "Some obscure error") = 23 ∧
       guardAssignedCode 23 (.runtimeError "Some obscure error") ≠ 24)) :=
  ⟨⟨by decide, by decide, by decide, by decide⟩,
   nested_guard_innermost 24 23 ["outer ctx"] ["inner ctx"] true
     (.runtimeError "Some obscure error") (by decide) (by decide) (by decide) (by decide)⟩

/-- C6: after streaming the subprocess output, `Manager.run` checks
`p.returncode` without ever calling `wait()`/`poll()`, so the attribute is
still `None`: `None` is not in `ignore_err_nums` and is falsy, hence
`SubprocessFailure` is NEVER raised, whatever the child's actual status —
a subprocess exiting nonzero lets the job continue.  Had `returncode` been
set, the check itself would raise as the claim describes (second
conjunct). -/
theorem manager_run_never_raises :
    (∀ (nums : List Int) (status : Int),
        runCheck nums (popenAfterStreaming status) = none) ∧
    runCheck [] { child_status := 1, returncode := some 1 } = some 1 ∧
    runCheck [5] { child_status := 5, returncode := some 5 } = none := by
  refine ⟨fun nums status => rfl, by decide, by decide⟩

/-- C8: the sleep computed inside `retry` ignores the caller's
`min_sleep`/`max_sleep`/`backoff` parameters: `exponential_backoff(tried)`
is called with only the iteration, so its own defaults `(1, 64, 2)` apply.
With `retry(..., min_sleep=1, max_sleep=2, backoff=2)`, the second failed
attempt at uniform draw `u = 1` sleeps `4` seconds — above the caller's
`max_sleep = 2`, which the claimed formula would have enforced. -/
theorem retry_sleep_ignores_caller_bounds :
    retrySleep 1 1 2 2 2 = 4 ∧ claimedSleep 1 1 2 2 2 = 2 ∧
    ¬ retrySleep 1 1 2 2 2 ≤ 2 := by
  refine ⟨?_, ?_, ?_⟩ <;>
    norm_num [retrySleep, exponential_backoff, claimedSleep,
              min_def, max_def]

/-- Rebuilding a string from its character list is the identity. -/
lemma mk_data (s : String) : String.mk s.data = s := by
  cases s
  rfl

/-- `splitCharAux` on a list free of the separator yields one segment. -/
lemma splitCharAux_no_sep (sep : Char) :
    ∀ (l acc : List Char), sep ∉ l →
      splitCharAux sep l acc = [acc.reverse ++ l] := by
  intro l
  induction l with
  | nil => intro acc h; simp [splitCharAux]
  | cons c rest ih =>
      intro acc h
      have hc : ¬ c = sep := fun he => h (he ▸ List.mem_cons_self c rest)
      have hrest : sep ∉ rest := fun hm => h (List.mem_cons_of_mem c hm)
      simp [splitCharAux, hc, ih (c :: acc) hrest]

/-- Python `split` on a separator-free string returns the string itself. -/
lemma pySplit_no_sep (s : String) (sep : Char) (h : sep ∉ s.data) :
    pySplit s sep = [s] := by
  unfold pySplit
  rw [splitCharAux_no_sep sep s.data [] h]
  simp [mk_data]

/-- `os.path.basename` of a slash-free name is the name itself. -/
lemma pyBasename_no_slash (f : String) (h : '/' ∉ f.data) :
    pyBasename f = f := by
  unfold pyBasename
  rw [pySplit_no_sep f '/' h]
  rfl

/-- For a `file:outputs` output URI and a relative dataset name, the output
path is `outputs/<dataset>` — dataset-qualified only, no instrument
segment. -/
lemma get_output_path_file_outputs (ds : String)
    (hds : pyStartsWith ds "/" = false) :
    get_output_path (some "file:outputs") ds = "outputs" ++ "/" ++ ds := by
  have h1 : pyStartsWith "file:outputs" "file" = true := by decide
  have h2 : pySplit "file:outputs" ':' = ["file", "outputs"] := by decide
  have h3 : pyEndsWith "outputs" "/" = false := by decide
  simp [get_output_path, h1, h2, pyPathJoin, hds, h3]

/-- Every character of a matched ipppssoot is ASCII alphanumeric. -/
lemma alnum_of_ipppssoot (s : String) (h : ipppssootMatch s = true) :
    ∀ ch ∈ s.data, isAlnumAscii ch = true := by
  intro ch hch
  unfold ipppssootMatch at h
  cases hd : s.data with
  | nil => rw [hd] at h; simp at h
  | cons c rest =>
      rw [hd] at h
      simp only [decide_eq_true_eq] at h
      obtain ⟨hc, hlen, hall⟩ := h
      rw [hd] at hch
      rcases List.mem_cons.mp hch with rfl | hmem
      · have hin : ∀ x ∈ (['I', 'J', 'L', 'O', 'i', 'j', 'l', 'o'] : List Char),
            isAlnumAscii x = true := by decide
        exact hin ch hc
      · exact List.all_eq_true.mp hall ch hmem

/-- A successful `SVM_RE` alternative forces an underscore somewhere in the
string. -/
lemma underscore_of_svmTry (k : Nat) (l : List Char) (h : svmTry k l = true) :
    '_' ∈ l := by
  simp only [svmTry, decide_eq_true_eq] at h
  obtain ⟨-, -, h3, -⟩ := h
  have h1 : '_' ∈ (l.drop k).take 1 := by
    rw [h3]; exact List.mem_singleton_self _
  exact List.drop_subset k l (List.take_subset 1 (l.drop k) h1)

/-- The single-exposure and visit-mosaic patterns are mutually exclusive:
a matched ipppssoot is all-alphanumeric while an SVM match needs `_`. -/
lemma svm_not_ipppssoot (s : String) (h : svmMatch s = true) :
    ipppssootMatch s = false := by
  cases hip : ipppssootMatch s with
  | false => rfl
  | true =>
      exfalso
      have hund : '_' ∈ s.data := by
        simp only [svmMatch, Bool.or_eq_true] at h
        rcases h with h4 | h3
        · exact underscore_of_svmTry 4 s.data h4
        · exact underscore_of_svmTry 3 s.data h3
      exact absurd (alnum_of_ipppssoot s hip '_' hund) (by decide)

/-- A multi-visit match fixes the first nine characters to `skycell-p`. -/
lemma mvm_structure (s : String) (h : mvmMatch s = true) :
    ∃ t, s.data
      = 's' :: 'k' :: 'y' :: 'c' :: 'e' :: 'l' :: 'l' :: '-' :: 'p' :: t := by
  simp only [mvmMatch, decide_eq_true_eq] at h
  obtain ⟨h9, -⟩ := h
  refine ⟨s.data.drop 9, ?_⟩
  conv_lhs => rw [← List.take_append_drop 9 s.data]
  rw [h9]
  rfl

/-- A multi-visit identifier starts with `s`, so it can not match the
single-exposure pattern (leading class `[IJLOijlo]`). -/
lemma mvm_not_ipppssoot (s : String) (h : mvmMatch s = true) :
    ipppssootMatch s = false := by
  obtain ⟨t, ht⟩ := mvm_structure s h
  unfold ipppssootMatch
  rw [ht]
  rfl

/-- A multi-visit identifier has `c` at index 3 and `e` at index 4, so
neither SVM alternative (underscore at index 3 or 4) matches. -/
lemma mvm_not_svm (s : String) (h : mvmMatch s = true) :
    svmMatch s = false := by
  obtain ⟨t, ht⟩ := mvm_structure s h
  unfold svmMatch
  rw [ht]
  rfl

/-- If every attempt fails, the retry loop starting `k > 0` iterations
before exhaustion makes exactly `k` further calls and re-raises the
exception of the final attempt. -/
lemma retryLoop_allfail {ε α : Type} (f : Nat → Except ε α) (g : Nat → ε)
    (hf : ∀ i, f i = .error (g i)) :
    ∀ (k tried calls : Nat) (saved : Option ε), 0 < k →
      retryLoop f k tried calls saved
        = (.raised (g (tried + k - 1)), calls + k) := by
  intro k
  induction k with
  | zero => intro tried calls saved hk; omega
  | succ n ih =>
      intro tried calls saved hk
      rw [retryLoop, hf tried]
      show retryLoop f n (tried + 1) (calls + 1) (some (g tried)) = _
      cases n with
      | zero =>
          rw [retryLoop]
          show (RetryResult.raised (g tried), calls + 1) = _
          simp
      | succ p =>
          rw [ih (tried + 1) (calls + 1) (some (g tried)) (by omega)]
          have h2 : (tried + 1) + (p + 1) - 1 = tried + (p + 1 + 1) - 1 := by omega
          have h3 : (calls + 1) + (p + 1) = calls + (p + 1 + 1) := by omega
          rw [h2, h3]

/-- C7 counterexample: `retry` with `max_retries = 0` makes zero calls and
reaches `raise exc` with `exc` never assigned — Python raises
`UnboundLocalError` there, not "the exception raised by the last attempt"
(there was no attempt), so the claim's universal quantification over every
`maxAttempts` value fails at `0`. -/
theorem retry_zero_attempts_cex :
    retry (fun _ => (Except.error 42 : Except Nat Nat)) 0
      = (RetryResult.unboundLocal, 0) := by
  rfl

/-- C7 (amended): for `max_retries ≥ 1` and a function failing on every
call, `retry` invokes the function exactly `max_retries` times and then
re-raises the exception of the last attempt unchanged. -/
theorem retry_exhausts_attempts {ε α : Type} (f : Nat → Except ε α) (g : Nat → ε)
    (hf : ∀ i, f i = .error (g i)) (max_retries : Nat) (hm : 0 < max_retries) :
    retry f max_retries = (.raised (g (max_retries - 1)), max_retries) := by
  have h := retryLoop_allfail f g hf max_retries 0 0 none hm
  simpa [retry] using h

/-- C7 witness: a function always raising `"boom"` under `max_retries = 3`
is called exactly 3 times and `"boom"` is re-raised. -/
theorem retry_exhausts_attempts_witness :
    retry (fun _ : Nat => (Except.error "boom" : Except String Nat)) 3
      = (RetryResult.raised "boom", 3) :=
  retry_exhausts_attempts _ (fun _ => "boom") (fun _ => rfl) 3 (by decide)

/-- C4 counterexample: on a fresh job (empty local `messages/` directory —
nothing external has written `submit-<ds>`), `Messages.init` completes
(`stat = 1`) yet writes no marker at all: immediately after Status
Messenger initialization the number of live markers is `0`, not exactly
one. -/
theorem messages_init_zero_markers_cex :
    (Messages.init freshMsgState).dir.count = 0 ∧
    (Messages.init freshMsgState).stat = 1 := by
  decide

/-- C4 (amended): provided the externally-written `submit` marker is
present at `init` and the output URI is not `None`, exactly one marker is
live after `init`, after `process_message` and after `final_message` (for
either metrics outcome); within `process_message` the new marker is written
before the prior one is removed, so the count transiently reaches two. -/
theorem messages_marker_invariant (d0 : MsgDir) (hsub : d0.submit = true)
    (ps pv : Nat) :
    (Messages.init (startState d0)).dir.count = 1 ∧
    (writeMarker (Messages.init (startState d0)).dir .processing).count = 2 ∧
    (Messages.process_message (Messages.init (startState d0))).dir.count = 1 ∧
    (Messages.final_message ps pv
        (Messages.process_message (Messages.init (startState d0)))).dir.count = 1 := by
  obtain ⟨sb, pr, er, pd⟩ := d0
  cases sb with
  | false => simp at hsub
  | true =>
      refine ⟨rfl, rfl, rfl, ?_⟩
      by_cases hres : ps + pv > 0 <;>
        simp [startState, Messages.init, Messages.process_message,
              Messages.final_message, hres, writeMarker, removeMarker, MsgDir.count]

/-- C4 witness: submit marker present, both phase metrics digits zero. -/
theorem messages_marker_invariant_witness :
    submitOnlyDir.submit = true ∧
    (Messages.init (startState submitOnlyDir)).dir.count = 1 ∧
    (Messages.process_message (Messages.init (startState submitOnlyDir))).dir.count = 1 ∧
    (Messages.final_message 0 0
        (Messages.process_message (Messages.init (startState submitOnlyDir)))).dir.count = 1 := by
  have h := messages_marker_invariant submitOnlyDir rfl 0 0
  exact ⟨rfl, h.1, h.2.2.1, h.2.2.2⟩

/-- C5: `get_dataset_type` is deterministic and total on well-formed
identifiers: every string fully matching the fixed-length single-exposure
pattern is classified `ipst`; every string matching the underscore-delimited
SVM pattern whose first underscore-segment is a known instrument is
classified `svm`; every `skycell-p####x##y##` string is classified `mvm`;
the three kind values are pairwise distinct; and a string matching none of
the patterns raises the classification `ValueError`. -/
theorem get_dataset_type_classification :
    (∀ s, ipppssootMatch s = true → get_dataset_type s = .ok "ipst") ∧
    (∀ s, svmMatch s = true → svmPrefixKnown s = true →
      get_dataset_type s = .ok "svm") ∧
    (∀ s, mvmMatch s = true → get_dataset_type s = .ok "mvm") ∧
    (("ipst" : String) ≠ "svm" ∧ ("ipst" : String) ≠ "mvm" ∧
      ("svm" : String) ≠ "mvm") ∧
    (∀ s, ipppssootMatch s = false → (svmMatch s && svmPrefixKnown s) = false →
      mvmMatch s = false → get_dataset_type s = .error INVALID_DATASET_MSG) := by
  refine ⟨?_, ?_, ?_, by decide, ?_⟩
  · intro s hip
    simp [get_dataset_type, hip]
  · intro s hsvm hpk
    simp [get_dataset_type, svm_not_ipppssoot s hsvm, hsvm, hpk]
  · intro s hmvm
    simp [get_dataset_type, mvm_not_ipppssoot s hmvm, mvm_not_svm s hmvm, hmvm]
  · intro s h1 h2 h3
    simp [get_dataset_type, h1, h2, h3]

/-- C5 witness: one well-formed identifier of each kind and one malformed
string. -/
theorem get_dataset_type_classification_witness :
    (ipppssootMatch "j8cb010b0" = true ∧
      get_dataset_type "j8cb010b0" = .ok "ipst") ∧
    (svmMatch "acs_8ph_01" = true ∧ svmPrefixKnown "acs_8ph_01" = true ∧
      get_dataset_type "acs_8ph_01" = .ok "svm") ∧
    (mvmMatch "skycell-p0797x12y05" = true ∧
      get_dataset_type "skycell-p0797x12y05" = .ok "mvm") ∧
    (ipppssootMatch "foo" = false ∧
      (svmMatch "foo" && svmPrefixKnown "foo") = false ∧ mvmMatch "foo" = false ∧
      get_dataset_type "foo" = .error INVALID_DATASET_MSG) := by
  have h := get_dataset_type_classification
  exact ⟨⟨by decide, h.1 "j8cb010b0" (by decide)⟩,
         ⟨by decide, by decide, h.2.1 "acs_8ph_01" (by decide) (by decide)⟩,
         ⟨by decide, h.2.2.1 "skycell-p0797x12y05" (by decide)⟩,
         ⟨by decide, by decide, by decide,
          h.2.2.2.2 "foo" (by decide) (by decide) (by decide)⟩⟩

/-- C9 counterexample: the resolved egress destination is qualified by the
dataset alone: for the single-exposure ACS dataset `j8cb010b0` under
`file:outputs`, the persisted path of a product is
`outputs/j8cb010b0/<file>` and contains NO `acs` segment (the claim's
`outputs/<instrument-or-kind>/<dataset>/` layout does not match
`get_output_path`, whose own doctest shows the instrument-free form). -/
theorem output_path_no_instrument_cex :
    get_output_path (some "file:outputs") "j8cb010b0" = "outputs/j8cb010b0" ∧
    output_filename (get_output_path (some "file:outputs") "j8cb010b0")
        "j8cb010b0_raw.fits" = "outputs/j8cb010b0/j8cb010b0_raw.fits" ∧
    "acs" ∉ pySplit (output_filename (get_output_path (some "file:outputs") "j8cb010b0")
        "j8cb010b0_raw.fits") '/' := by
  refine ⟨by decide, by decide, by decide⟩

/-- C9 (amended): for a `file:outputs` URI, every surviving slash-free
output file of a relative dataset `ds` is placed directly under
`outputs/<ds>/`, and the environment snapshot (`*_cal_env.txt`) under the
dedicated `outputs/<ds>/env/` subpath; the destination is qualified by the
dataset, not by instrument or kind. -/
theorem output_layout (ds fname envf : String)
    (hds : pyStartsWith ds "/" = false)
    (hf1 : pyEndsWith fname "_cal_env.txt" = false) (hf2 : '/' ∉ fname.data)
    (he1 : pyEndsWith envf "_cal_env.txt" = true) (he2 : '/' ∉ envf.data) :
    output_filename (get_output_path (some "file:outputs") ds) fname
      = "outputs" ++ "/" ++ ds ++ "/" ++ fname ∧
    output_filename (get_output_path (some "file:outputs") ds) envf
      = "outputs" ++ "/" ++ ds ++ "/env/" ++ envf := by
  rw [get_output_path_file_outputs ds hds]
  unfold output_filename
  rw [pyBasename_no_slash fname hf2, pyBasename_no_slash envf he2]
  constructor
  · rw [if_neg (by simp [hf1])]
  · rw [if_pos he1]

/-- C9 witness: the layout theorem at the E2E example dataset. -/
theorem output_layout_witness :
    (pyStartsWith "j8cb010b0" "/" = false ∧
     pyEndsWith "j8cb010b0_raw.fits" "_cal_env.txt" = false ∧
     '/' ∉ "j8cb010b0_raw.fits".data ∧
     pyEndsWith "j8cb010b0_cal_env.txt" "_cal_env.txt" = true ∧
     '/' ∉ "j8cb010b0_cal_env.txt".data) ∧
    (output_filename (get_output_path (some "file:outputs") "j8cb010b0")
        "j8cb010b0_raw.fits"
      = "outputs" ++ "/" ++ "j8cb010b0" ++ "/" ++ "j8cb010b0_raw.fits" ∧
     output_filename (get_output_path (some "file:outputs") "j8cb010b0")
        "j8cb010b0_cal_env.txt"
      = "outputs" ++ "/" ++ "j8cb010b0" ++ "/env/" ++ "j8cb010b0_cal_env.txt") :=
  ⟨⟨by decide, by decide, by decide, by decide, by decide⟩,
   output_layout "j8cb010b0" "j8cb010b0_raw.fits" "j8cb010b0_cal_env.txt"
     (by decide) (by decide) (by decide) (by decide) (by decide)⟩

/-- Every instrument name is shorter than a 9-character ipppssoot. -/
lemma INSTRUMENTS_short : ∀ n ∈ INSTRUMENTS, n.data.length < 9 := by decide

/-- A matched ipppssoot (9 characters) is never itself an instrument name,
so `get_instrument` falls through to the leading-character table. -/
lemma ipst_not_instrument (s : String) (h : ipppssootMatch s = true) :
    pyLower s ∉ INSTRUMENTS := by
  intro hmem
  unfold ipppssootMatch at h
  cases hd : s.data with
  | nil => rw [hd] at h; simp at h
  | cons c rest =>
      rw [hd] at h
      simp only [decide_eq_true_eq] at h
      obtain ⟨-, hlen, -⟩ := h
      have hlen9 : (pyLower s).data.length = 9 := by
        simp [pyLower, hd, hlen]
      have := INSTRUMENTS_short (pyLower s) hmem
      omega

/-- A matched ipppssoot starts with a character of the class `[IJLOijlo]`. -/
lemma ipst_first_char (s : String) (h : ipppssootMatch s = true) :
    ∃ c rest, s.data = c :: rest ∧
      c ∈ (['I', 'J', 'L', 'O', 'i', 'j', 'l', 'o'] : List Char) := by
  unfold ipppssootMatch at h
  cases hd : s.data with
  | nil => rw [hd] at h; simp at h
  | cons c rest =>
      rw [hd] at h
      simp only [decide_eq_true_eq] at h
      exact ⟨c, rest, rfl, h.1⟩

/-- On a matched ipppssoot, `get_instrument` succeeds and returns one of
the four currently supported instruments. -/
lemma ipst_get_instrument (s : String) (h : ipppssootMatch s = true) :
    ∃ i, get_instrument s = some i ∧
      i ∈ (["acs", "wfc3", "stis", "cos"] : List String) := by
  have hno := ipst_not_instrument s h
  obtain ⟨c, rest, hd, hc⟩ := ipst_first_char s h
  have hup : (pyUpper s).data = Char.toUpper c :: rest.map Char.toUpper := by
    simp [pyUpper, hd]
  unfold get_instrument
  rw [if_neg hno, hup]
  fin_cases hc <;> exact ⟨_, rfl, by decide⟩

/-- C10: whenever `get_dataset_type` accepts a dataset identifier,
`get_manager` succeeds: the selected manager key exists in the `MANAGERS`
table (the dict lookup never raises and `manager_type` is never unbound),
and for a single-exposure identifier `get_instrument` resolves the leading
character to one of `acs`, `wfc3`, `stis`, `cos`. -/
theorem get_manager_total (s t : String) (h : get_dataset_type s = .ok t) :
    (∃ m, get_manager s = .ok m ∧ m ∈ MANAGERS) ∧
    (t = "ipst" → ∃ i, get_instrument s = some i ∧
      i ∈ (["acs", "wfc3", "stis", "cos"] : List String)) := by
  unfold get_dataset_type at h
  cases hip : ipppssootMatch s with
  | true =>
      rw [hip] at h
      simp only [if_pos] at h
      obtain rfl : "ipst" = t := by simpa using h
      obtain ⟨i, hi, him⟩ := ipst_get_instrument s hip
      have hman : i ∈ MANAGERS := by
        have hall : ∀ x ∈ (["acs", "wfc3", "stis", "cos"] : List String),
            x ∈ MANAGERS := by decide
        exact hall i him
      refine ⟨⟨i, ?_, hman⟩, fun _ => ⟨i, hi, him⟩⟩
      simp [get_manager, get_dataset_type, hip, hi, hman]
  | false =>
      rw [hip] at h
      simp only [Bool.false_eq_true, if_false] at h
      cases hsv : (svmMatch s && svmPrefixKnown s) with
      | true =>
          rw [hsv] at h
          simp only [if_pos] at h
          obtain rfl : "svm" = t := by simpa using h
          have hmem : ("svm" : String) ∈ MANAGERS := by decide
          refine ⟨⟨"svm", ?_, ?_⟩, fun ht => absurd ht (by decide)⟩
          · simp [get_manager, get_dataset_type, hip, hsv, hmem]
          · exact hmem
      | false =>
          rw [hsv] at h
          simp only [Bool.false_eq_true, if_false] at h
          cases hmv : mvmMatch s with
          | true =>
              rw [hmv] at h
              simp only [if_pos] at h
              obtain rfl : "mvm" = t := by simpa using h
              have hmem : ("mvm" : String) ∈ MANAGERS := by decide
              refine ⟨⟨"mvm", ?_, ?_⟩, fun ht => absurd ht (by decide)⟩
              · simp [get_manager, get_dataset_type, hip, hsv, hmv, hmem]
              · exact hmem
          | false =>
              rw [hmv] at h
              simp at h

/-- C10 witness: the E2E example dataset `j8cb010b0`. -/
theorem get_manager_total_witness :
    get_dataset_type "j8cb010b0" = .ok "ipst" ∧
    (∃ m, get_manager "j8cb010b0" = .ok m ∧ m ∈ MANAGERS) ∧
    (∃ i, get_instrument "j8cb010b0" = some i ∧
      i ∈ (["acs", "wfc3", "stis", "cos"] : List String)) := by
  have h := get_manager_total "j8cb010b0" "ipst" rfl
  exact ⟨rfl, h.1, h.2 rfl⟩

end Caldp
